import Mathlib

/-!
Verification of the SymptoLens condition-scoring and validation pipeline.

This file gives a shallow embedding of the pipeline implemented in
`server/services/knowledgeBase.ts` (condition repository and association
scorer), `server/services/termStandardization.ts` (term standardization and
the `ReasoningEngine` aggregator/validator), `server/services/symptom-analyzer.ts`
(default next steps), `temp_extraction/SymptoLens/server/services/knowledgeBase.ts`
(recommendation advisor), `server/services/knowledge-base.ts` (the second
knowledge-base variant) and `unnamed/part_008` (the second reasoning-engine
variant), and proves properties of that embedding.

Modelling decisions, applied uniformly:
* JavaScript numbers are modelled as exact rationals (`ℚ`); floating-point
  rounding is out of scope.
* The `NodeCache` keyed by lowercased condition name is modelled by its
  observable content: a list of conditions; a keyed `get` after the loading
  loop returns the last condition whose lowercased name matches the key
  (later `cache.set` calls overwrite earlier ones), hence the `reverse.find?`.
* `async` plumbing is dropped: every modelled operation is a pure total
  function, which also captures the fact that none of them throws.
* The human-readable `reasoningNotes` strings are modelled by an inductive
  type carrying their information content (the score, the matched factors,
  the missing critical symptoms); the exact text layout and the
  `toFixed(2)` rendering are out of scope and no claim depends on them.
-/

/-- ASCII lowercasing, modelling JavaScript `String.prototype.toLowerCase`
on the ASCII strings this code base uses.  (Defined via `List.map` on the
character list so that it evaluates by kernel reduction; it agrees with
`String.toLower` since that maps `Char.toLower` over the characters.) -/
def jsToLower (s : String) : String :=
  ⟨s.data.map Char.toLower⟩

/-- `leadsWith p l` is `true` iff the character list `l` starts with `p`. -/
def leadsWith : List Char → List Char → Bool
  | [], _ => true
  | _ :: _, [] => false
  | p :: ps, c :: cs => p == c && leadsWith ps cs

/-- `containsChars pat hay` is `true` iff `pat` occurs as a contiguous
segment of `hay` (the empty pattern occurs everywhere). -/
def containsChars (pat : List Char) : List Char → Bool
  | [] => leadsWith pat []
  | c :: t => leadsWith pat (c :: t) || containsChars pat t

/-- Substring test modelling JavaScript `String.prototype.includes`:
`strContains s pat` is `true` iff `pat` occurs inside `s` (always `true`
for the empty pattern, as in JavaScript). -/
def strContains (s pat : String) : Bool :=
  containsChars pat.data s.data

/-- The `symptomsRelationships` record of a medical condition
(field names as in the TypeScript source). -/
structure SymptomsRelationships where
  required : List String
  commonly_together : List String
  rarely_together : List String
deriving DecidableEq

/-- A medical condition record, as stored by the knowledge base
(`shared/schema.ts` / the default-condition literals in
`server/services/knowledgeBase.ts`).  Fields that a given record does not
set in the source (`urgency`, `recommendation`, `symptomsRelationships`)
are `Option`s; `recommendedActions` defaults to the empty list. -/
structure MedicalCondition where
  id : Nat
  name : String
  description : String
  symptoms : List String
  visualCues : List String
  urgency : Option String
  recommendedActions : List String
  recommendation : Option String
  symptomsRelationships : Option SymptomsRelationships
deriving DecidableEq

/-- The default condition `Influenza` from `loadDefaultConditions`
(`server/services/knowledgeBase.ts`, lines 58-71). -/
def influenza : MedicalCondition :=
  { id := 1
    name := "Influenza"
    description := "Influenza is a viral infection that attacks your respiratory system - your nose, throat and lungs. Commonly called the flu."
    symptoms := ["fever", "cough", "sore throat", "body aches", "fatigue", "chills", "headache"]
    visualCues := []
    urgency := some "medium"
    recommendedActions := ["Rest", "Stay hydrated", "Take over-the-counter pain relievers"]
    recommendation := none
    symptomsRelationships := some
      { required := ["fever", "fatigue"]
        commonly_together := ["fever", "body aches", "chills"]
        rarely_together := ["fever", "no respiratory symptoms"] } }

/-- The default condition `Migraine` (same file, lines 72-85). -/
def migraine : MedicalCondition :=
  { id := 4
    name := "Migraine"
    description := "A neurological condition causing severe headaches, often with visual disturbances and nausea."
    symptoms := ["severe headache", "nausea", "light sensitivity", "vision changes", "dizziness"]
    visualCues := ["facial pallor", "squinting"]
    urgency := some "medium"
    recommendedActions := ["Rest in dark room", "Take prescribed medication"]
    recommendation := none
    symptomsRelationships := some
      { required := ["severe headache"]
        commonly_together := ["light sensitivity", "nausea"]
        rarely_together := ["severe headache", "no sensitivity symptoms"] } }

/-- The default condition `Bronchitis` (same file, lines 86-99). -/
def bronchitis : MedicalCondition :=
  { id := 5
    name := "Bronchitis"
    description := "Inflammation of the bronchial tubes that carry air to and from the lungs."
    symptoms := ["persistent cough", "chest congestion", "fatigue", "mild fever", "shortness of breath"]
    visualCues := []
    urgency := some "medium"
    recommendedActions := ["Rest", "Use humidifier", "Stay hydrated"]
    recommendation := none
    symptomsRelationships := some
      { required := ["persistent cough"]
        commonly_together := ["chest congestion", "shortness of breath"]
        rarely_together := ["persistent cough", "no respiratory symptoms"] } }

/-- The default condition `Common Cold` (same file, lines 100-108);
note that it has no `symptomsRelationships` entry. -/
def commonCold : MedicalCondition :=
  { id := 2
    name := "Common Cold"
    description := "The common cold is a viral infection of your nose and throat (upper respiratory tract)."
    symptoms := ["runny nose", "sore throat", "cough", "congestion", "sneezing", "mild body aches", "mild headache"]
    visualCues := []
    urgency := some "low"
    recommendedActions := []
    recommendation := some "Rest, stay hydrated, and use over-the-counter remedies for symptom relief. Symptoms usually resolve within a week or two."
    symptomsRelationships := none }

/-- The default condition `Skin Allergy` (same file, lines 109-117);
note that it has no `symptomsRelationships` entry. -/
def skinAllergy : MedicalCondition :=
  { id := 3
    name := "Skin Allergy"
    description := "A skin allergy occurs when your skin reacts to an allergen, causing a rash or other symptoms."
    symptoms := ["rash", "itchiness", "redness", "swelling", "bumps", "blisters"]
    visualCues := ["hives", "contact dermatitis rash", "localized redness", "swelling"]
    urgency := some "low-medium"
    recommendedActions := []
    recommendation := some "Avoid the allergen. Use antihistamines or topical creams. See a doctor for persistent or severe reactions."
    symptomsRelationships := none }

/-- The built-in default condition list of `loadDefaultConditions`
(`server/services/knowledgeBase.ts`, lines 56-128), in source order. -/
def defaultConditions : List MedicalCondition :=
  [influenza, migraine, bronchitis, commonCold, skinAllergy]

/-- `KnowledgeBase.getConditionByName` (`server/services/knowledgeBase.ts`,
line 146): keyed cache lookup by lowercased name.  Because the loading loop
runs `cache.set` per condition, a later condition with the same lowercased
name overwrites an earlier one, which the `reverse.find?` reproduces. -/
def getConditionByName (conds : List MedicalCondition) (name : String) :
    Option MedicalCondition :=
  conds.reverse.find? (fun c => jsToLower c.name == jsToLower name)

/-- The match-counting loop of `KnowledgeBase.calculateSymptomAssociation`
(`server/services/knowledgeBase.ts`, lines 174-179): an identified factor is
counted iff it is case-insensitively EQUAL to some entry of
`symptoms ++ visualCues`. -/
def matchCount (condition : MedicalCondition) (identifiedFactors : List String) : Nat :=
  (identifiedFactors.filter (fun factor =>
    (condition.symptoms ++ condition.visualCues).any
      (fun cf => jsToLower cf == jsToLower factor))).length

/-- `KnowledgeBase.calculateSymptomAssociation`
(`server/services/knowledgeBase.ts`, lines 158-194). -/
def calculateSymptomAssociation (conds : List MedicalCondition)
    (conditionName : String) (identifiedFactors : List String) : ℚ :=
  match getConditionByName conds conditionName with
  | none => 0
  | some condition =>
    let allConditionFactors := condition.symptoms ++ condition.visualCues
    let m : ℚ := (matchCount condition identifiedFactors : ℚ)
    let coverageScore : ℚ :=
      if 0 < identifiedFactors.length then m / (identifiedFactors.length : ℚ) else 0
    let specificityScore : ℚ :=
      if 0 < allConditionFactors.length then m / (allConditionFactors.length : ℚ) else 0
    (2/5) * coverageScore + (3/5) * specificityScore

/-- `KnowledgeBase.getMatchingFactors` (`server/services/knowledgeBase.ts`,
lines 202-221): the identified factors that are case-insensitively equal to
some entry of `symptoms ++ visualCues`. -/
def getMatchingFactors (conds : List MedicalCondition)
    (conditionName : String) (identifiedFactors : List String) : List String :=
  match getConditionByName conds conditionName with
  | none => []
  | some condition =>
    identifiedFactors.filter (fun factor =>
      (condition.symptoms ++ condition.visualCues).any
        (fun cf => jsToLower cf == jsToLower factor))

/-- Modelled from the spec: the match count of spec section 4.2 step 2, which
counts the identified factors that case-insensitively equal OR are substrings
of / contain an entry of `symptoms ++ visualCues` (symmetric substring match).
This definition follows the spec words, for comparison with `matchCount`. -/
def specMatchCount (condition : MedicalCondition) (identifiedFactors : List String) : Nat :=
  (identifiedFactors.filter (fun factor =>
    (condition.symptoms ++ condition.visualCues).any
      (fun cf => strContains (jsToLower cf) (jsToLower factor) ||
                 strContains (jsToLower factor) (jsToLower cf)))).length

/-- Modelled from the spec: the association score of spec section 4.2
(steps 1-5), built on the symmetric-substring `specMatchCount`.  This
definition follows the spec words, for comparison with
`calculateSymptomAssociation`. -/
def specScore (condition : MedicalCondition) (identifiedFactors : List String) : ℚ :=
  let allConditionFactors := condition.symptoms ++ condition.visualCues
  let m : ℚ := (specMatchCount condition identifiedFactors : ℚ)
  let coverage : ℚ :=
    if 0 < identifiedFactors.length then m / (identifiedFactors.length : ℚ) else 0
  let specificity : ℚ :=
    if 0 < allConditionFactors.length then m / (allConditionFactors.length : ℚ) else 0
  (2/5) * coverage + (3/5) * specificity

/-- The exact case-insensitive match count, characterized propositionally:
the number of identified factors whose lowercasing coincides with the
lowercasing of some entry of `symptoms ++ visualCues`. -/
def exactMatchCount (condition : MedicalCondition) (identifiedFactors : List String) : Nat :=
  identifiedFactors.countP (fun factor =>
    decide (∃ cf ∈ condition.symptoms ++ condition.visualCues,
      jsToLower cf = jsToLower factor))

/-- The three-level relevance classification of a candidate condition. -/
inductive Relevance where
  | low
  | medium
  | high
deriving DecidableEq

/-- Information content of the `reasoningNotes` strings produced by the
`ReasoningEngine` (`server/services/termStandardization.ts`): the
association-score note and matching-factors note of `generatePredictions`
(lines 163-166) and the missing-critical-symptoms note of
`validatePredictions` (line 214).  The concrete string rendering
(including `toFixed(2)`) is out of scope. -/
inductive ReasoningNote where
  | association (score : ℚ)
  | matching (factors : List String)
  | missingCritical (symptoms : List String)
deriving DecidableEq

/-- A candidate condition produced by the pipeline (`PotentialCondition` in
`shared/schema.ts`, as populated by `ReasoningEngine.generatePredictions`). -/
structure PotentialCondition where
  name : String
  description : String
  relevance : Relevance
  symptoms : List String
  visualCues : List String
  score : ℚ
  urgency : Option String
  recommendation : Option String
  reasoningNotes : List ReasoningNote
deriving DecidableEq

/-- The ordering used by the sorts in `generatePredictions` (line 172) and
`validatePredictions` (line 231): the comparator `(a, b) => b.score - a.score`
places `a` no later than `b` exactly when `b.score ≤ a.score`. -/
def scoreDescRel (a b : PotentialCondition) : Prop :=
  b.score ≤ a.score

instance : DecidableRel scoreDescRel :=
  fun a b => inferInstanceAs (Decidable (b.score ≤ a.score))

instance : IsTotal PotentialCondition scoreDescRel :=
  ⟨fun a b => le_total b.score a.score⟩

instance : IsTrans PotentialCondition scoreDescRel :=
  ⟨fun _ _ _ hab hbc => le_trans hbc hab⟩

/-- JavaScript `Array.prototype.sort` with the comparator
`(a, b) => b.score - a.score`: a STABLE sort (required since ES2019) in
non-increasing score order.  The output of a stable sort is uniquely
determined by the ordering and the input order, so it is modelled by
insertion sort, which Mathlib proves stable. -/
def sortByScoreDesc (l : List PotentialCondition) : List PotentialCondition :=
  l.insertionSort scoreDescRel

/-- A term mapping of `TermStandardization`
(`server/services/termStandardization.ts`, lines 4-7). -/
structure TermMapping where
  standard : String
  variations : List String

/-- The `termMappings` table of `TermStandardization` (same file, lines 10-23). -/
def termMappings : List TermMapping :=
  [ { standard := "fever"
      variations := ["high temperature", "elevated temperature", "febrile", "pyrexia"] }
  , { standard := "headache"
      variations := ["head pain", "cephalgia", "head discomfort", "cranial pain"] }
  , { standard := "nausea"
      variations := ["feeling sick", "queasy", "sick to stomach", "emesis"] } ]

/-- `TermStandardization.standardizeTerm` (same file, lines 25-35): return
the standard term of the first mapping one of whose variations occurs inside
the lowercased input, or the input unchanged. -/
def standardizeTerm (input : String) : String :=
  let lowerInput := jsToLower input
  match termMappings.find? (fun mapping =>
      mapping.variations.any (fun v => strContains lowerInput (jsToLower v))) with
  | some mapping => mapping.standard
  | none => input

/-- `TermStandardization.standardizeSymptoms` (same file, lines 37-39). -/
def standardizeSymptoms (symptoms : List String) : List String :=
  symptoms.map standardizeTerm

/-- The relevance thresholds of `ReasoningEngine.generatePredictions`
(`server/services/termStandardization.ts`, lines 138-144):
`score > 0.7` is high, else `score > 0.4` is medium, else low. -/
def relevanceOf (score : ℚ) : Relevance :=
  if 7/10 < score then Relevance.high
  else if 2/5 < score then Relevance.medium
  else Relevance.low

/-- The `hasRequiredSymptoms` value of `generatePredictions` (lines 117-121):
`condition.symptomsRelationships?.required.every(...)`, which is `undefined`
(modelled `none`) when the condition has no `symptomsRelationships` entry.
Membership is the exact (case-sensitive) `Array.prototype.includes`. -/
def requiredSatisfied (condition : MedicalCondition)
    (standardizedFactors : List String) : Option Bool :=
  condition.symptomsRelationships.map
    (fun r => r.required.all (fun symptom => standardizedFactors.contains symptom))

/-- The `commonPairsPresent` value of `generatePredictions` (lines 123-127). -/
def commonlyTogetherPresent (condition : MedicalCondition)
    (standardizedFactors : List String) : Option Bool :=
  condition.symptomsRelationships.map
    (fun r => r.commonly_together.all (fun symptom => standardizedFactors.contains symptom))

/-- The score after the required-symptom adjustment of `generatePredictions`
(lines 130-133), before the commonly-together boost: JavaScript
`if (!hasRequiredSymptoms) adjustedScore *= 0.5` halves the score whenever
`hasRequiredSymptoms` is falsy, i.e. `false` OR `undefined`. -/
def preBoostScore (condition : MedicalCondition)
    (standardizedFactors : List String) (associationScore : ℚ) : ℚ :=
  if requiredSatisfied condition standardizedFactors = some true then associationScore
  else associationScore * (1/2)

/-- The fully adjusted score of `generatePredictions` (lines 129-136):
the required-symptom halving followed by the commonly-together 1.2 boost. -/
def adjustedScoreOf (condition : MedicalCondition)
    (standardizedFactors : List String) (associationScore : ℚ) : ℚ :=
  let s := preBoostScore condition standardizedFactors associationScore
  if commonlyTogetherPresent condition standardizedFactors = some true then s * (6/5) else s

/-- The per-condition body of the `generatePredictions` loop
(`server/services/termStandardization.ts`, lines 110-169): compute the
association score, adjust it, classify relevance, and keep the condition as
a candidate iff it has a matching factor or adjusted score above 0.3. -/
def predictionFor (conds : List MedicalCondition)
    (standardizedFactors : List String) (condition : MedicalCondition) :
    Option PotentialCondition :=
  let associationScore := calculateSymptomAssociation conds condition.name standardizedFactors
  let adjustedScore := adjustedScoreOf condition standardizedFactors associationScore
  let relevance := relevanceOf adjustedScore
  let matchingFactors := getMatchingFactors conds condition.name standardizedFactors
  if 0 < matchingFactors.length ∨ 3/10 < adjustedScore then
    some { name := condition.name
           description := condition.description
           relevance := relevance
           symptoms := condition.symptoms
           visualCues := condition.visualCues
           score := adjustedScore
           urgency := condition.urgency
           recommendation := condition.recommendation
           reasoningNotes := [ReasoningNote.association adjustedScore,
                              ReasoningNote.matching matchingFactors] }
  else none

/-- `ReasoningEngine.generatePredictions`
(`server/services/termStandardization.ts`, lines 97-173): standardize the
factors, score every repository condition, and sort descending by score. -/
def generatePredictions (conds : List MedicalCondition)
    (allIdentifiedFactors : List String) : List PotentialCondition :=
  sortByScoreDesc
    (conds.filterMap (predictionFor conds (standardizeSymptoms allIdentifiedFactors)))

/-- `ReasoningEngine.getCriticalSymptoms` (same file, lines 288-296):
the first `min(3, n)` symptoms. -/
def getCriticalSymptoms (condition : MedicalCondition) : List String :=
  if condition.symptoms.length ≤ 3 then condition.symptoms
  else condition.symptoms.take 3

/-- The per-candidate body of the `validatePredictions` loop (same file,
lines 187-228): drop scores below 0.1, drop zero-match low scores, and
apply the 0.8 missing-critical-symptom penalty (without recomputing the
relevance field). -/
def validateOne (conds : List MedicalCondition) (identifiedFactors : List String)
    (prediction : PotentialCondition) : Option PotentialCondition :=
  if prediction.score < 1/10 then none
  else
    let matchingFactors := getMatchingFactors conds prediction.name identifiedFactors
    if matchingFactors.length = 0 ∧ prediction.score < 3/10 then none
    else
      match getConditionByName conds prediction.name with
      | some condition =>
        let criticalSymptoms := getCriticalSymptoms condition
        let missingCriticalSymptoms :=
          criticalSymptoms.filter (fun symptom => !(identifiedFactors.contains symptom))
        if 0 < missingCriticalSymptoms.length then
          some { prediction with
                 score := prediction.score * (4/5)
                 reasoningNotes := prediction.reasoningNotes ++
                   [ReasoningNote.missingCritical missingCriticalSymptoms] }
        else some prediction
      | none => some prediction

/-- The validated list before the final sort of `validatePredictions`. -/
def validateUnsorted (conds : List MedicalCondition)
    (predictions : List PotentialCondition) (identifiedFactors : List String) :
    List PotentialCondition :=
  predictions.filterMap (validateOne conds identifiedFactors)

/-- `ReasoningEngine.validatePredictions` (same file, lines 181-232). -/
def validatePredictions (conds : List MedicalCondition)
    (predictions : List PotentialCondition) (identifiedFactors : List String) :
    List PotentialCondition :=
  sortByScoreDesc (validateUnsorted conds predictions identifiedFactors)

/-- The condition-list half of `ReasoningEngine.processFusionOutput`
(same file, lines 69-90): generate predictions from the identified factors,
then validate them against the same (unstandardized) factors. -/
def pipelineConditions (conds : List MedicalCondition)
    (allIdentifiedFactors : List String) : List PotentialCondition :=
  validatePredictions conds (generatePredictions conds allIdentifiedFactors)
    allIdentifiedFactors

/-- The `type` field of a next step: `'consult' | 'general'`. -/
inductive NextStepType where
  | consult
  | general
deriving DecidableEq

/-- A `NextStep` record (`shared/schema.ts`). -/
structure NextStep where
  type : NextStepType
  title : String
  description : String
  suggestions : Option (List String)
deriving DecidableEq

/-- `getDefaultNextSteps` (`server/services/symptom-analyzer.ts`,
lines 98-121): one consult step and one general step. -/
def getDefaultNextSteps : List NextStep :=
  [ { type := NextStepType.consult
      title := "Consult Healthcare Provider"
      description := "Since we cannot make a confident prediction, please consult a qualified healthcare provider."
      suggestions := some
        [ "Schedule an appointment with your primary care physician"
        , "Document your symptoms and their duration"
        , "Note any factors that worsen or improve the symptoms" ] }
  , { type := NextStepType.general
      title := "General Self-Care"
      description := "While waiting to see a healthcare provider, consider these general measures:"
      suggestions := some
        [ "Rest and avoid strenuous activities"
        , "Stay hydrated by drinking plenty of fluids"
        , "Monitor your symptoms and note any changes" ] } ]

/-- The Influenza entry of the validated-but-unsorted list on the input
`["cough"]`, used as a concrete stability example: its score ties with the
Common Cold entry. -/
def influenzaCoughEntry : PotentialCondition :=
  { name := "Influenza"
    description := influenza.description
    relevance := Relevance.low
    symptoms := influenza.symptoms
    visualCues := []
    score := 34/175
    urgency := some "medium"
    recommendation := none
    reasoningNotes := [ReasoningNote.association (17/70),
                       ReasoningNote.matching ["cough"],
                       ReasoningNote.missingCritical ["fever", "sore throat"]] }

/-- The Common Cold entry of the validated-but-unsorted list on the input
`["cough"]`; it ties with `influenzaCoughEntry` at score 34/175. -/
def commonColdCoughEntry : PotentialCondition :=
  { name := "Common Cold"
    description := commonCold.description
    relevance := Relevance.low
    symptoms := commonCold.symptoms
    visualCues := []
    score := 34/175
    urgency := some "low"
    recommendation := commonCold.recommendation
    reasoningNotes := [ReasoningNote.association (17/70),
                       ReasoningNote.matching ["cough"],
                       ReasoningNote.missingCritical ["runny nose", "sore throat"]] }

/-- The observable cache state of a `KnowledgeBase` instance
(`server/services/knowledgeBase.ts`): the `all_conditions` cache entry and
the `conditionsLoaded` flag. -/
structure KBState where
  allConditions : Option (List MedicalCondition)
  conditionsLoaded : Bool
deriving DecidableEq

/-- `KnowledgeBase.loadConditions` (`server/services/knowledgeBase.ts`,
lines 22-51) run on a fresh instance.  The backing-store read either yields
a condition list or fails (`Except.error`).  A non-empty result populates
the cache; an EMPTY result only logs a warning and leaves the cache
unpopulated; a thrown error is caught and `loadDefaultConditions` installs
the built-in list.  The function is total: no failure is propagated. -/
def loadConditions (store : Except String (List MedicalCondition)) : KBState :=
  match store with
  | Except.ok conditions =>
    if 0 < conditions.length then
      { allConditions := some conditions, conditionsLoaded := true }
    else
      { allConditions := none, conditionsLoaded := false }
  | Except.error _ =>
    { allConditions := some defaultConditions, conditionsLoaded := true }

/-- `KnowledgeBase.getAllConditions` (same file, lines 134-139):
`cache.get('all_conditions') || []`. -/
def getAllConditions (st : KBState) : List MedicalCondition :=
  st.allConditions.getD []

/-- A candidate condition as consumed by the recommendation advisor
(`temp_extraction/SymptoLens/server/services/knowledgeBase.ts`).  Its
`getRecommendedNextSteps` and helpers read only the `name` and `relevance`
fields of the `PotentialCondition` records, so only those are modelled. -/
structure AdvisorCondition where
  name : String
  relevance : Relevance
deriving DecidableEq

/-- The urgent-condition name list of `KnowledgeBase.needsUrgentCare`
(`temp_extraction/.../knowledgeBase.ts`, lines 302-313). -/
def urgentConditions : List String :=
  ["appendicitis", "meningitis", "stroke", "heart attack", "pulmonary embolism",
   "anaphylaxis", "severe dehydration", "sepsis"]

/-- `KnowledgeBase.needsUrgentCare` (same file): some high-relevance
candidate whose name contains an urgent-condition name, case-insensitively. -/
def needsUrgentCare (conditions : List AdvisorCondition) : Bool :=
  conditions.any (fun c =>
    decide (c.relevance = Relevance.high) &&
    urgentConditions.any (fun uc => strContains (jsToLower c.name) (jsToLower uc)))

/-- The `locationSpecialistMap` of `KnowledgeBase.determineSpecialistType`
(same file, lines 318-337). -/
def locationSpecialistMap : List (String × String) :=
  [("skin", "Dermatologist"), ("head", "Neurologist"),
   ("chest", "Cardiologist or Pulmonologist"), ("abdomen", "Gastroenterologist"),
   ("back", "Orthopedist or Rheumatologist"), ("joints", "Rheumatologist"),
   ("eyes", "Ophthalmologist"), ("ears", "Otolaryngologist (ENT)"),
   ("throat", "Otolaryngologist (ENT)")]

/-- `KnowledgeBase.determineSpecialistType` (same file): a specialist title
looked up from the body location; `none` without a body location or mapping.
(The `conditions` parameter is unused, as in the source.) -/
def determineSpecialistType (conditions : List AdvisorCondition)
    (bodyLocation : Option String) : Option String :=
  match bodyLocation with
  | none => none
  | some loc => (locationSpecialistMap.find? (fun p => p.1 == loc)).map (fun p => p.2)

/-- `KnowledgeBase.categorizeCondition` (same file, lines 380-404). -/
def categorizeCondition (conditionName : String) : String :=
  let lowerName := jsToLower conditionName
  if strContains lowerName "rash" || strContains lowerName "dermatitis" ||
     strContains lowerName "eczema" || strContains lowerName "acne" then
    "dermatological"
  else if strContains lowerName "cough" || strContains lowerName "asthma" ||
     strContains lowerName "pneumonia" || strContains lowerName "bronchitis" then
    "respiratory"
  else if strContains lowerName "stomach" || strContains lowerName "intestinal" ||
     strContains lowerName "gastritis" || strContains lowerName "colitis" then
    "gastrointestinal"
  else if strContains lowerName "sprain" || strContains lowerName "strain" ||
     strContains lowerName "arthritis" || strContains lowerName "tendonitis" then
    "musculoskeletal"
  else "general"

/-- `KnowledgeBase.getConditionSpecificCare` (same file, lines 342-375):
category-specific suggestions, capped at 5.  (The JavaScript `Set` of
categories is queried only through membership, modelled by `contains`.) -/
def getConditionSpecificCare (conditions : List AdvisorCondition) : List String :=
  let conditionTypes := conditions.map (fun c => categorizeCondition c.name)
  let suggestions :=
    (if conditionTypes.contains "dermatological" then
      ["Avoid scratching affected skin areas",
       "Use gentle, fragrance-free products on skin"] else []) ++
    (if conditionTypes.contains "respiratory" then
      ["Stay in a well-ventilated area",
       "Use a humidifier if air is dry",
       "Avoid smoke and other respiratory irritants"] else []) ++
    (if conditionTypes.contains "gastrointestinal" then
      ["Eat smaller, more frequent meals",
       "Stay hydrated with clear fluids",
       "Avoid spicy, greasy, or irritating foods"] else []) ++
    (if conditionTypes.contains "musculoskeletal" then
      ["Apply ice to reduce inflammation",
       "Rest the affected area but maintain gentle movement as tolerated",
       "Consider over-the-counter pain relievers (following package directions)"] else [])
  suggestions.take 5

/-- `KnowledgeBase.getRecommendedNextSteps`
(`temp_extraction/.../knowledgeBase.ts`, lines 98-162): the urgent-or-routine
consult step, the conditional specialist step (ALSO of type consult), the
general-care step, and the conditional condition-specific step. -/
def getRecommendedNextSteps (conditions : List AdvisorCondition)
    (bodyLocation : Option String) : List NextStep :=
  let highRelevanceConditions :=
    conditions.filter (fun c => decide (c.relevance = Relevance.high))
  let consultStep : NextStep :=
    if needsUrgentCare conditions then
      { type := NextStepType.consult
        title := "Seek Prompt Medical Attention"
        description := "Based on your symptoms, we recommend seeking medical attention promptly. Some of the potential conditions associated with your symptoms may require timely evaluation."
        suggestions := none }
    else
      { type := NextStepType.consult
        title := "Consult a Healthcare Provider"
        description :=
          match bodyLocation with
          | some loc => "Based on your symptoms in the " ++ loc ++ " area, we recommend consulting with a healthcare professional for proper evaluation and treatment."
          | none => "Based on your symptoms, we recommend consulting with a healthcare professional for proper evaluation and treatment."
        suggestions := none }
  let specialistSteps : List NextStep :=
    match determineSpecialistType conditions bodyLocation with
    | some specialistType =>
      [{ type := NextStepType.consult
         title := "Consider Consulting a " ++ specialistType
         description := "Based on your symptoms, a " ++ jsToLower specialistType ++ " may be able to provide specialized care for your condition."
         suggestions := none }]
    | none => []
  let generalStep : NextStep :=
    { type := NextStepType.general
      title := "General Care Suggestions"
      description := "Consider these general care tips while you wait to see a healthcare provider:"
      suggestions := some
        ["Get adequate rest and stay hydrated",
         "Avoid potential triggers or irritants",
         "Monitor your symptoms and note any changes",
         "Prepare a list of your symptoms, their duration, and severity for your doctor"] }
  let conditionSteps : List NextStep :=
    if 0 < highRelevanceConditions.length then
      let conditionCare := getConditionSpecificCare highRelevanceConditions
      if 0 < conditionCare.length then
        [{ type := NextStepType.general
           title := "Condition-Specific Considerations"
           description := "These suggestions may be helpful based on the potential conditions identified:"
           suggestions := some conditionCare }]
      else []
    else []
  [consultStep] ++ specialistSteps ++ [generalStep] ++ conditionSteps

/-- The match-counting loop of the second knowledge-base variant
(`server/services/knowledge-base.ts`, lines 106-112): a factor matches iff
some condition SYMPTOM (visual cues are not used in this variant) contains
the factor as a substring, case-insensitively. -/
def kb2_matchCount (condition : MedicalCondition) (identifiedFactors : List String) : Nat :=
  (identifiedFactors.filter (fun factor =>
    condition.symptoms.any (fun s =>
      strContains (jsToLower s) (jsToLower factor)))).length

/-- `KnowledgeBase.calculateSymptomAssociation` of the second variant
(`server/services/knowledge-base.ts`, lines 97-124):
`0.7 × matchRatio + 0.3 × coverageRatio`, 0 on an empty factor list.
(The JavaScript divides by `conditionSymptoms.length` with no zero guard;
conditions with a non-empty symptom list are the modelled scope.) -/
def kb2_calculateSymptomAssociation (conds : List MedicalCondition)
    (conditionName : String) (identifiedFactors : List String) : ℚ :=
  match getConditionByName conds conditionName with
  | none => 0
  | some condition =>
    let m : ℚ := (kb2_matchCount condition identifiedFactors : ℚ)
    if identifiedFactors.length = 0 then 0
    else (7/10) * (m / (identifiedFactors.length : ℚ))
       + (3/10) * (m / (condition.symptoms.length : ℚ))

/-- `KnowledgeBase.getMatchingFactors` of the second variant (same file,
lines 132-155): symmetric substring match against the symptoms, then
deduplication keeping first occurrences (`[...new Set(...)]`). -/
def kb2_getMatchingFactors (conds : List MedicalCondition)
    (conditionName : String) (identifiedFactors : List String) : List String :=
  match getConditionByName conds conditionName with
  | none => []
  | some condition =>
    (identifiedFactors.filter (fun factor =>
      condition.symptoms.any (fun symptom =>
        strContains (jsToLower symptom) (jsToLower factor) ||
        strContains (jsToLower factor) (jsToLower symptom)))).eraseDups

/-- A condition prediction of the second reasoning-engine variant
(`unnamed/part_008`).  `confidence` is the integer produced by
`Math.min(100, Math.round(...))`.  The `additionalInfo` and
`recommendedActions` fields, copied verbatim from the condition record,
are omitted; no claim depends on them. -/
structure ConditionPrediction where
  id : String
  name : String
  confidence : ℤ
  description : String
  matchingFactors : List String
deriving DecidableEq

/-- JavaScript `Math.round`: round half toward positive infinity. -/
def jsRound (x : ℚ) : ℤ := ⌊x + 1/2⌋

/-- JavaScript `name.toLowerCase().replace(/\s+/g, '-')` on the
single-space condition names of this repository: lowercase, then each
space becomes a hyphen. -/
def slugOfName (name : String) : String :=
  ⟨(jsToLower name).data.map (fun ch => if ch = ' ' then '-' else ch)⟩

/-- The loop of `ReasoningEngine.generatePredictions` of the second variant
(`unnamed/part_008`, lines 50-89).  `Math.random()` is modelled by the
explicit stream `rand`: the k-th INCLUDED prediction receives the draw
`rand k` (the source evaluates one `Math.random()` call per pushed
prediction), making the randomness an explicit input. -/
def p8_predictionsAux (conds : List MedicalCondition) (factors : List String)
    (rand : Nat → ℚ) : List MedicalCondition → Nat → List ConditionPrediction
  | [], _ => []
  | condition :: rest, k =>
    let associationScore := kb2_calculateSymptomAssociation conds condition.name factors
    let matchingFactors := kb2_getMatchingFactors conds condition.name factors
    if 1/10 < associationScore then
      { id := slugOfName condition.name
        name := condition.name
        confidence := min 100 (jsRound (associationScore * 100 + rand k * 10))
        description := condition.description
        matchingFactors := matchingFactors }
        :: p8_predictionsAux conds factors rand rest (k + 1)
    else p8_predictionsAux conds factors rand rest k

/-- `ReasoningEngine.generatePredictions` of the second variant
(`unnamed/part_008`, lines 50-89), with the random draws explicit. -/
def p8_generatePredictions (conds : List MedicalCondition) (factors : List String)
    (rand : Nat → ℚ) : List ConditionPrediction :=
  p8_predictionsAux conds factors rand conds 0

/-- Projection of a prediction to its random-independent fields
(everything except `confidence`). -/
def predictionBase (p : ConditionPrediction) :
    String × String × String × List String :=
  (p.id, p.name, p.description, p.matchingFactors)

theorem matchCount_eq_exactMatchCount (condition : MedicalCondition)
    (identifiedFactors : List String) :
    matchCount condition identifiedFactors = exactMatchCount condition identifiedFactors := by
  unfold matchCount exactMatchCount
  rw [List.countP_eq_length_filter]
  congr 1
  apply List.filter_congr
  intro f _
  rw [Bool.eq_iff_iff]
  simp only [List.any_eq_true, beq_iff_eq, decide_eq_true_eq, List.mem_append]

theorem matchCount_le_length (condition : MedicalCondition) (factors : List String) :
    matchCount condition factors ≤ factors.length :=
  List.length_filter_le _ _

theorem matchCount_le_conditionFactors (condition : MedicalCondition)
    (factors : List String) (h : (factors.map jsToLower).Nodup) :
    matchCount condition factors ≤
      (condition.symptoms ++ condition.visualCues).length := by
  classical
  unfold matchCount
  set allCF := condition.symptoms ++ condition.visualCues with hall
  set g := factors.filter (fun f => allCF.any (fun cf => jsToLower cf == jsToLower f)) with hg
  have hsub : g.Sublist factors := List.filter_sublist _
  have hnd : (g.map jsToLower).Nodup := (hsub.map jsToLower).nodup h
  have hsubset : (g.map jsToLower) ⊆ (allCF.map jsToLower) := by
    intro x hx
    rcases List.mem_map.mp hx with ⟨f, hf, rfl⟩
    have hpf := List.of_mem_filter hf
    rcases List.any_eq_true.mp hpf with ⟨cf, hcf, hbeq⟩
    exact List.mem_map.mpr ⟨cf, hcf, beq_iff_eq.mp hbeq⟩
  calc g.length = (g.map jsToLower).length := (List.length_map _ _).symm
    _ = (g.map jsToLower).toFinset.card := (List.toFinset_card_of_nodup hnd).symm
    _ ≤ (allCF.map jsToLower).toFinset.card := by
        apply Finset.card_le_card
        intro x hx
        exact List.mem_toFinset.mpr (hsubset (List.mem_toFinset.mp hx))
    _ ≤ (allCF.map jsToLower).length := List.toFinset_card_le _
    _ = allCF.length := List.length_map _ _

/-- Claim C1 (amended): for every condition list, condition name and factor
list, when the lookup succeeds `calculateSymptomAssociation` equals
`0.4 × coverage + 0.6 × specificity` where both ratios are built from the
EXACT case-insensitive match count (a factor matches iff its lowercasing
equals the lowercasing of some entry of `symptoms ++ visualCues`), with the
0-for-empty conventions of the claim.  The symmetric-substring match rule the
claim states does not hold (see the counterexample). -/
theorem C1_exact_match_formula (conds : List MedicalCondition)
    (conditionName : String) (identifiedFactors : List String)
    (condition : MedicalCondition)
    (h : getConditionByName conds conditionName = some condition) :
    calculateSymptomAssociation conds conditionName identifiedFactors =
      (2/5) * (if 0 < identifiedFactors.length then
          (exactMatchCount condition identifiedFactors : ℚ) / (identifiedFactors.length : ℚ)
        else 0)
    + (3/5) * (if 0 < (condition.symptoms ++ condition.visualCues).length then
          (exactMatchCount condition identifiedFactors : ℚ) /
            ((condition.symptoms ++ condition.visualCues).length : ℚ)
        else 0) := by
  unfold calculateSymptomAssociation
  rw [h]
  simp only [matchCount_eq_exactMatchCount]

/-- Witness for C1 at a concrete input. -/
theorem C1_exact_match_formula_witness :
    calculateSymptomAssociation defaultConditions "Influenza" ["fever"] =
      (2/5) * (if 0 < (["fever"] : List String).length then
          (exactMatchCount influenza ["fever"] : ℚ) / (((["fever"] : List String).length : ℚ))
        else 0)
    + (3/5) * (if 0 < (influenza.symptoms ++ influenza.visualCues).length then
          (exactMatchCount influenza ["fever"] : ℚ) /
            (((influenza.symptoms ++ influenza.visualCues).length : ℚ))
        else 0) :=
  C1_exact_match_formula defaultConditions "Influenza" ["fever"] influenza (by decide)

/-- Counterexample for C1 as stated: the factor "severe fever" contains the
Influenza symptom "fever" as a substring, so the claim's symmetric-substring
rule gives the nonzero score 17/35, but the code's exact-equality rule gives
score 0. -/
theorem C1_counterexample :
    calculateSymptomAssociation defaultConditions "Influenza" ["severe fever"] = 0 ∧
    specScore influenza ["severe fever"] = 17/35 ∧
    (0 : ℚ) ≠ 17/35 := by with_unfolding_all decide

/-- Claim C2 (amended): the score is always nonnegative, is 0 on the empty
factor list, and is at most 1 PROVIDED the identified factors are pairwise
case-insensitively distinct; with duplicated factors it can exceed 1 (see the
counterexample). -/
theorem C2_range (conds : List MedicalCondition) (name : String)
    (factors : List String) (h : (factors.map jsToLower).Nodup) :
    0 ≤ calculateSymptomAssociation conds name factors ∧
    calculateSymptomAssociation conds name factors ≤ 1 ∧
    calculateSymptomAssociation conds name [] = 0 := by
  refine ⟨?_, ?_, ?_⟩
  · unfold calculateSymptomAssociation
    cases getConditionByName conds name with
    | none => simp
    | some condition =>
      simp only
      have h1 : (0:ℚ) ≤ (if 0 < factors.length then
          ((matchCount condition factors : ℚ)) / (factors.length : ℚ) else 0) := by
        split <;> positivity
      have h2 : (0:ℚ) ≤ (if 0 < (condition.symptoms ++ condition.visualCues).length then
          ((matchCount condition factors : ℚ)) /
            (((condition.symptoms ++ condition.visualCues).length : ℚ)) else 0) := by
        split <;> positivity
      nlinarith
  · unfold calculateSymptomAssociation
    cases getConditionByName conds name with
    | none => simp
    | some condition =>
      simp only
      have h1 : (if 0 < factors.length then
          ((matchCount condition factors : ℚ)) / (factors.length : ℚ) else 0) ≤ 1 := by
        split
        · rename_i hn
          rw [div_le_one (by exact_mod_cast hn)]
          exact_mod_cast matchCount_le_length condition factors
        · norm_num
      have h2 : (if 0 < (condition.symptoms ++ condition.visualCues).length then
          ((matchCount condition factors : ℚ)) /
            (((condition.symptoms ++ condition.visualCues).length : ℚ)) else 0) ≤ 1 := by
        split
        · rename_i hn
          rw [div_le_one (by exact_mod_cast hn)]
          exact_mod_cast matchCount_le_conditionFactors condition factors h
        · norm_num
      have h1n : (0:ℚ) ≤ (if 0 < factors.length then
          ((matchCount condition factors : ℚ)) / (factors.length : ℚ) else 0) := by
        split <;> positivity
      have h2n : (0:ℚ) ≤ (if 0 < (condition.symptoms ++ condition.visualCues).length then
          ((matchCount condition factors : ℚ)) /
            (((condition.symptoms ++ condition.visualCues).length : ℚ)) else 0) := by
        split <;> positivity
      nlinarith
  · unfold calculateSymptomAssociation
    cases getConditionByName conds name with
    | none => simp
    | some condition => simp [matchCount]

/-- Witness for C2 at a concrete input. -/
theorem C2_range_witness :
    0 ≤ calculateSymptomAssociation defaultConditions "Influenza" ["fever", "cough"] ∧
    calculateSymptomAssociation defaultConditions "Influenza" ["fever", "cough"] ≤ 1 ∧
    calculateSymptomAssociation defaultConditions "Influenza" [] = 0 :=
  C2_range defaultConditions "Influenza" ["fever", "cough"] (by decide)

/-- Counterexample for C2 as stated: with the duplicate-tolerant factor list
of eight copies of "fever" (duplicates are explicitly permitted by the
claim), the Influenza score is 38/35 > 1. -/
theorem C2_counterexample :
    calculateSymptomAssociation defaultConditions "Influenza" (List.replicate 8 "fever") = 38/35 ∧
    ¬ calculateSymptomAssociation defaultConditions "Influenza" (List.replicate 8 "fever") ≤ 1 := by
  with_unfolding_all decide

/-- Claim C10: a name matching no condition case-insensitively yields score 0
from `calculateSymptomAssociation` and the empty list from
`getMatchingFactors`, for every factor list.  (Both modelled operations are
total functions, so neither throws.) -/
theorem C10_unknown_condition (conds : List MedicalCondition) (name : String)
    (factors : List String)
    (h : ∀ c ∈ conds, jsToLower c.name ≠ jsToLower name) :
    calculateSymptomAssociation conds name factors = 0 ∧
    getMatchingFactors conds name factors = [] := by
  have hfind : getConditionByName conds name = none := by
    unfold getConditionByName
    rw [List.find?_eq_none]
    intro c hc
    simp only [beq_iff_eq]
    exact h c (List.mem_reverse.mp hc)
  exact ⟨by simp [calculateSymptomAssociation, hfind], by simp [getMatchingFactors, hfind]⟩

/-- Witness for C10 at a concrete input. -/
theorem C10_unknown_condition_witness :
    calculateSymptomAssociation defaultConditions "Nonexistent Condition" ["fever"] = 0 ∧
    getMatchingFactors defaultConditions "Nonexistent Condition" ["fever"] = [] :=
  C10_unknown_condition defaultConditions "Nonexistent Condition" ["fever"] (by decide)

theorem calculateSymptomAssociation_nil (conds : List MedicalCondition) (name : String) :
    calculateSymptomAssociation conds name [] = 0 := by
  unfold calculateSymptomAssociation
  cases getConditionByName conds name with
  | none => rfl
  | some condition => simp [matchCount]

theorem getMatchingFactors_nil (conds : List MedicalCondition) (name : String) :
    getMatchingFactors conds name [] = [] := by
  unfold getMatchingFactors
  cases getConditionByName conds name with
  | none => rfl
  | some condition => rfl

theorem preBoostScore_zero (condition : MedicalCondition) (fs : List String) :
    preBoostScore condition fs 0 = 0 := by
  unfold preBoostScore
  split <;> simp

theorem adjustedScoreOf_zero (condition : MedicalCondition) (fs : List String) :
    adjustedScoreOf condition fs 0 = 0 := by
  unfold adjustedScoreOf
  rw [preBoostScore_zero]
  split <;> simp

theorem predictionFor_nil (conds : List MedicalCondition) (condition : MedicalCondition) :
    predictionFor conds [] condition = none := by
  simp only [predictionFor, calculateSymptomAssociation_nil, getMatchingFactors_nil,
    adjustedScoreOf_zero, List.length_nil, lt_irrefl, false_or]
  norm_num

theorem generatePredictions_nil (conds : List MedicalCondition) :
    generatePredictions conds [] = [] := by
  unfold generatePredictions
  have h : conds.filterMap (predictionFor conds (standardizeSymptoms [])) = [] := by
    rw [List.filterMap_eq_nil_iff]
    intro c _
    exact predictionFor_nil conds c
  rw [h]
  rfl

/-- Claim C7: on the empty identified-factors list the pipeline does not
fail: it returns no candidate conditions, and the default next steps contain
exactly one step of type consult and exactly one step of type general. -/
theorem C7_empty_input (conds : List MedicalCondition) :
    pipelineConditions conds [] = [] ∧
    getDefaultNextSteps.countP (fun s => decide (s.type = NextStepType.consult)) = 1 ∧
    getDefaultNextSteps.countP (fun s => decide (s.type = NextStepType.general)) = 1 := by
  refine ⟨?_, by decide, by decide⟩
  unfold pipelineConditions validatePredictions validateUnsorted
  rw [generatePredictions_nil]
  rfl

/-- Claim C3 (amended): the score before the commonly-together boost equals
0.5 × the association score exactly when the condition has NO
`symptomsRelationships` entry (JavaScript `!undefined` is truthy) or some
required term is absent from the standardized factors; it keeps the
unadjusted association score only when a `symptomsRelationships` entry
exists and every required term is present. -/
theorem C3_required_halving (condition : MedicalCondition)
    (standardizedFactors : List String) (associationScore : ℚ) :
    (condition.symptomsRelationships = none →
      preBoostScore condition standardizedFactors associationScore
        = associationScore * (1/2)) ∧
    (∀ r, condition.symptomsRelationships = some r →
      (∀ s ∈ r.required, s ∈ standardizedFactors) →
      preBoostScore condition standardizedFactors associationScore = associationScore) ∧
    (∀ r, condition.symptomsRelationships = some r →
      (∃ s ∈ r.required, s ∉ standardizedFactors) →
      preBoostScore condition standardizedFactors associationScore
        = associationScore * (1/2)) := by
  refine ⟨fun h => ?_, fun r hr hall => ?_, fun r hr hex => ?_⟩
  · have hsat : requiredSatisfied condition standardizedFactors = none := by
      unfold requiredSatisfied
      rw [h]
      rfl
    unfold preBoostScore
    rw [hsat]
    simp
  · have hsat : requiredSatisfied condition standardizedFactors = some true := by
      unfold requiredSatisfied
      rw [hr]
      simp only [Option.map_some', Option.some.injEq]
      rw [List.all_eq_true]
      intro s hs
      simpa using hall s hs
    unfold preBoostScore
    rw [hsat]
    simp
  · rcases hex with ⟨s, hs, hnot⟩
    have hsat : requiredSatisfied condition standardizedFactors = some false := by
      unfold requiredSatisfied
      rw [hr]
      simp only [Option.map_some', Option.some.injEq]
      rw [Bool.eq_false_iff]
      intro hall
      rw [List.all_eq_true] at hall
      exact hnot (by simpa using hall s hs)
    unfold preBoostScore
    rw [hsat]
    simp

/-- Witness for C3 at a concrete input: Common Cold has no
`symptomsRelationships` entry, so its score is halved. -/
theorem C3_required_halving_witness :
    preBoostScore commonCold ["cough"] (17/35) = (17/35) * (1/2) :=
  (C3_required_halving commonCold ["cough"] (17/35)).1 rfl

/-- Counterexample for C3 as stated: Common Cold has no
`symptomsRelationships` entry, so by the claim it should keep its unadjusted
association score 17/35 on the input `["cough"]`; the code emits the halved
candidate score 17/70. -/
theorem C3_counterexample :
    commonCold.symptomsRelationships = none ∧
    calculateSymptomAssociation defaultConditions "Common Cold" ["cough"] = 17/35 ∧
    (∃ p ∈ generatePredictions defaultConditions ["cough"],
      p.name = "Common Cold" ∧ p.score = 17/70) ∧
    (17/70 : ℚ) ≠ 17/35 := by with_unfolding_all decide

/-- Claim C4 (amended): every candidate emitted by the aggregator carries
the relevance obtained by classifying its AGGREGATOR-adjusted score with the
thresholds (score > 0.7 high, else score > 0.4 medium, else low; 0.4 itself
is low).  The validator does not recompute relevance, so after its 0.8
penalty the stored relevance can disagree with the classification of the
final score (see the counterexample). -/
theorem C4_relevance_from_aggregator_score (conds : List MedicalCondition)
    (factors : List String) :
    (generatePredictions conds factors).all
      (fun p => decide (p.relevance = relevanceOf p.score)) = true := by
  rw [List.all_eq_true]
  intro p hp
  rw [decide_eq_true_eq]
  unfold generatePredictions sortByScoreDesc at hp
  rw [List.mem_insertionSort] at hp
  rcases List.mem_filterMap.mp hp with ⟨c, _, hfc⟩
  simp only [predictionFor] at hfc
  split at hfc
  · rw [Option.some.injEq] at hfc
    subst hfc
    rfl
  · exact absurd hfc (by simp)

/-- Counterexample for C4 as stated: on the input
`["fever", "fatigue", "rash"]` the validated Influenza entry has final score
184/525 (after the 0.8 penalty) classified low, but still carries relevance
medium; moreover the claim asserts a final score of exactly 0.4 maps to
medium, while the thresholds map it to low. -/
theorem C4_counterexample :
    (¬ ∀ p ∈ pipelineConditions defaultConditions ["fever", "fatigue", "rash"],
        p.relevance = relevanceOf p.score) ∧
    relevanceOf (2/5) = Relevance.low := by with_unfolding_all decide

/-- Claim C5 (amended): the validator output is ordered by non-increasing
final score, and ties preserve the order of the VALIDATOR INPUT (the
aggregator's score-sorted list); after the validator's 0.8 penalty this tie
order can differ from the original repository iteration order (see the
counterexample). -/
theorem C5_sorted_and_stable (conds : List MedicalCondition) (factors : List String) :
    List.Pairwise scoreDescRel (pipelineConditions conds factors) ∧
    (∀ p q : PotentialCondition,
      [p, q].Sublist (validateUnsorted conds (generatePredictions conds factors) factors) →
      q.score ≤ p.score →
      [p, q].Sublist (pipelineConditions conds factors)) := by
  constructor
  · exact List.sorted_insertionSort scoreDescRel _
  · intro p q hsub hle
    exact List.pair_sublist_insertionSort hle hsub

/-- Witness for C5 at a concrete input: on `["cough"]` the validated
Influenza and Common Cold entries tie at 34/175 and keep their order. -/
theorem C5_sorted_and_stable_witness :
    [influenzaCoughEntry, commonColdCoughEntry].Sublist
      (pipelineConditions defaultConditions ["cough"]) :=
  (C5_sorted_and_stable defaultConditions ["cough"]).2
    influenzaCoughEntry commonColdCoughEntry
    (by
      rw [show validateUnsorted defaultConditions
            (generatePredictions defaultConditions ["cough"]) ["cough"]
          = [influenzaCoughEntry, commonColdCoughEntry] from by with_unfolding_all decide])
    (by with_unfolding_all decide)

set_option maxRecDepth 8000 in
/-- Counterexample for C5 as stated: on a nine-factor input Migraine and
Influenza tie at final score 164/315 (Migraine reached it via the 0.8
penalty), and the output lists Migraine BEFORE Influenza although Influenza
precedes Migraine in the repository iteration order. -/
theorem C5_counterexample :
    ((pipelineConditions defaultConditions
        ["fever", "cough", "sore throat", "fatigue", "severe headache", "nausea",
         "vision changes", "dizziness", "facial pallor"]).map
      (fun p => (p.name, p.score))) =
      [("Migraine", 164/315), ("Influenza", 164/315), ("Common Cold", 164/1575)] ∧
    defaultConditions.findIdx (fun c => c.name == "Influenza") <
      defaultConditions.findIdx (fun c => c.name == "Migraine") := by
  with_unfolding_all decide

/-- Claim C6 (amended): after a FAILED store read, `loadConditions` falls
back to the built-in default list, which is non-empty, and the failure is
not propagated (the modelled operation is total for every error value);
after an EMPTY result set, however, no fallback is installed and
`getAllConditions` returns the empty list, while a non-empty result set is
served as-is. -/
theorem C6_load_fallback :
    (∀ e : String, getAllConditions (loadConditions (Except.error e)) = defaultConditions) ∧
    0 < defaultConditions.length ∧
    (∀ (c : MedicalCondition) (cs : List MedicalCondition),
      getAllConditions (loadConditions (Except.ok (c :: cs))) = c :: cs) ∧
    getAllConditions (loadConditions (Except.ok ([] : List MedicalCondition))) = [] := by
  refine ⟨fun e => rfl, by decide, fun c cs => ?_, rfl⟩
  simp [loadConditions, getAllConditions]

/-- Counterexample for C6 as stated: when the backing store returns an
empty result set (no exception), `getAllConditions` yields the empty list,
not the built-in default list. -/
theorem C6_counterexample :
    getAllConditions (loadConditions (Except.ok ([] : List MedicalCondition))) = [] ∧
    getAllConditions (loadConditions (Except.ok ([] : List MedicalCondition)))
      ≠ defaultConditions := by decide

/-- Claim C8 (amended): the advisor emits exactly ONE consult step when no
specialist suggestion applies, and exactly TWO steps of type consult when a
specialist suggestion applies (the specialist step is also of type
consult), for every condition list and optional body location. -/
theorem C8_consult_count (conditions : List AdvisorCondition)
    (bodyLocation : Option String) :
    (getRecommendedNextSteps conditions bodyLocation).countP
        (fun s => decide (s.type = NextStepType.consult)) =
      match determineSpecialistType conditions bodyLocation with
      | some _ => 2
      | none => 1 := by
  cases h : determineSpecialistType conditions bodyLocation with
  | none =>
    simp only [getRecommendedNextSteps, h]
    split_ifs <;> rfl
  | some sp =>
    simp only [getRecommendedNextSteps, h]
    split_ifs <;> rfl

/-- Counterexample for C8 as stated: with body location "skin" the advisor
emits two steps of type consult (the routine consult step and the
dermatologist suggestion), violating the at-most-one bound. -/
theorem C8_counterexample :
    ¬ ((getRecommendedNextSteps [] (some "skin")).countP
        (fun s => decide (s.type = NextStepType.consult)) ≤ 1) := by decide

theorem p8_predictionsAux_map_base (conds : List MedicalCondition)
    (factors : List String) (r1 r2 : Nat → ℚ) :
    ∀ (l : List MedicalCondition) (k1 k2 : Nat),
      (p8_predictionsAux conds factors r1 l k1).map predictionBase =
      (p8_predictionsAux conds factors r2 l k2).map predictionBase := by
  intro l
  induction l with
  | nil => intro k1 k2; rfl
  | cons c rest ih =>
    intro k1 k2
    simp only [p8_predictionsAux]
    by_cases h : 1/10 < kb2_calculateSymptomAssociation conds c.name factors
    · simp only [if_pos h, List.map_cons, predictionBase]
      exact congrArg _ (ih (k1 + 1) (k2 + 1))
    · simp only [if_neg h]
      exact ih k1 k2

/-- Claim C9 (amended): the part_008 variant of `generatePredictions`
evaluates `Math.random()` per emitted prediction, so two invocations with
identical identified factors and identical cached condition data agree in
every field EXCEPT possibly the confidence values; with the draw stream
fixed the output is fully determined.  (The termStandardization pipeline,
`pipelineConditions`, is a pure function of the cache and the factors and
has no random source.) -/
theorem C9_random_only_confidence (conds : List MedicalCondition)
    (factors : List String) (r1 r2 : Nat → ℚ) :
    (p8_generatePredictions conds factors r1).map predictionBase =
    (p8_generatePredictions conds factors r2).map predictionBase :=
  p8_predictionsAux_map_base conds factors r1 r2 conds 0 0

/-- Counterexample for C9 as stated: with identical conditions and factors
but different random draws, the part_008 `generatePredictions` returns
different outputs (confidences 74 and 76 versus 83 and 85), so the cited
scoring pipeline is not a function of the claimed inputs alone. -/
theorem C9_counterexample :
    p8_generatePredictions defaultConditions ["fever"] (fun _ => 0) ≠
    p8_generatePredictions defaultConditions ["fever"] (fun _ => 9/10) := by
  with_unfolding_all decide
